import Mathlib

/-!
Verification development for the Telenovela-Studio backend: a shallow
embedding of the state-machine mixin (`app/models/mixins.py`), the
per-entity transition tables and lifecycle methods (`app/models/models.py`),
the project step gate (`Project.can_advance_to`), the batch episode
generation orchestration (`app/api/episodes.py`), the idea approval
endpoint (`app/api/ideas.py`), the step-mutation sites of the API layer,
and the stuck-entity recovery route (`app/api/recovery.py`).

Conventions of the embedding:
* a Python method that may raise and that mutates its receiver is a Lean
  function returning `receiver' × Option (PyExc σ)`: the receiver as left
  behind by the call (including partial mutation performed before the
  raise) together with the exception, if one was raised;
* `dict.get(k, default)` over the state-keyed `VALID_TRANSITIONS` dicts is
  association-list `lookup` with `getD`;
* the untyped JSON responses of the Generator are records of `Option`
  fields (`.get(camelKey, .get(snake_key, d))` chains collapse to a single
  optional field, since both spellings address the same datum);
* SQLAlchemy rows are records holding the columns the modelled code reads
  or writes.
-/

-- ============================================================================
-- Definitions
-- ============================================================================

inductive IdeaState where
  | draft | approved | rejected
deriving DecidableEq, Repr

inductive StructureState where
  | draft | modified | approved
deriving DecidableEq, Repr

inductive GenerationState where
  | pending | generating | generated | approved
deriving DecidableEq, Repr

inductive MediaState where
  | pending | generating | generated | approved | rejected
deriving DecidableEq, Repr

inductive PromptState where
  | pending | generated | approved
deriving DecidableEq, Repr

/-- Exceptions raised by the modelled code: `InvalidTransitionError`
(mixins.py, carrying entity type, current state, target state), Python's
`AttributeError` from a failed attribute lookup, and FastAPI's
`HTTPException` (status code and detail string). -/
inductive PyExc (σ : Type) where
  | invalidTransitionError (entity_type : String) (current target : σ)
  | attributeError (cls attr : String)
  | httpException (status : Nat) (detail : String)
deriving DecidableEq, Repr

/-- `StateMachineMixin.transition_to` (mixins.py lines 30-44): look up
`VALID_TRANSITIONS.get(current, set())`; if the target is not allowed raise
`InvalidTransitionError(cls, current, new_state)` leaving the state as it
was, otherwise set the state to the target. -/
def transition_to {σ : Type} [DecidableEq σ] (valid : List (σ × List σ))
    (cls : String) (current new_state : σ) : σ × Option (PyExc σ) :=
  let allowed := (valid.lookup current).getD []
  if new_state ∈ allowed then
    (new_state, none)
  else
    (current, some (.invalidTransitionError cls current new_state))

/-- `StateMachineMixin.can_transition_to` (mixins.py lines 46-49). -/
def can_transition_to {σ : Type} [DecidableEq σ] (valid : List (σ × List σ))
    (current new_state : σ) : Bool :=
  new_state ∈ (valid.lookup current).getD []

/-- `Idea.VALID_TRANSITIONS` (models.py lines 177-181). -/
def Idea.VALID_TRANSITIONS : List (IdeaState × List IdeaState) :=
  [(.draft, [.approved, .rejected]), (.approved, []), (.rejected, [])]

/-- `Character.VALID_TRANSITIONS` (models.py lines 213-217). -/
def Character.VALID_TRANSITIONS : List (StructureState × List StructureState) :=
  [(.draft, [.modified, .approved]), (.modified, [.approved]), (.approved, [.modified])]

/-- `Location.VALID_TRANSITIONS` (models.py lines 251-255). -/
def Location.VALID_TRANSITIONS : List (StructureState × List StructureState) :=
  [(.draft, [.modified, .approved]), (.modified, [.approved]), (.approved, [.modified])]

/-- `EpisodeSummary.VALID_TRANSITIONS` (models.py lines 286-290). -/
def EpisodeSummary.VALID_TRANSITIONS : List (StructureState × List StructureState) :=
  [(.draft, [.modified, .approved]), (.modified, [.approved]), (.approved, [.modified])]

/-- `Episode.VALID_TRANSITIONS` (models.py lines 323-328). -/
def Episode.VALID_TRANSITIONS : List (GenerationState × List GenerationState) :=
  [(.pending, [.generating]),
   (.generating, [.generated, .pending]),
   (.generated, [.approved]),
   (.approved, [.generated])]

/-- The `MediaState` transition table, textually identical in
`CharacterRef`, `LocationRef`, `GeneratedImage`, `Thumbnail` and
`GeneratedVideo` (models.py lines 436-442, 475-481, 518-524, 560-566,
639-645). -/
def mediaTransitions : List (MediaState × List MediaState) :=
  [(.pending, [.generating]),
   (.generating, [.generated, .pending]),
   (.generated, [.approved, .rejected]),
   (.approved, [.rejected]),
   (.rejected, [.pending])]

/-- `CharacterRef.VALID_TRANSITIONS` (models.py lines 436-442). -/
def CharacterRef.VALID_TRANSITIONS : List (MediaState × List MediaState) := mediaTransitions

/-- `LocationRef.VALID_TRANSITIONS` (models.py lines 475-481). -/
def LocationRef.VALID_TRANSITIONS : List (MediaState × List MediaState) := mediaTransitions

/-- `GeneratedImage.VALID_TRANSITIONS` (models.py lines 518-524). -/
def GeneratedImage.VALID_TRANSITIONS : List (MediaState × List MediaState) := mediaTransitions

/-- `Thumbnail.VALID_TRANSITIONS` (models.py lines 560-566). -/
def Thumbnail.VALID_TRANSITIONS : List (MediaState × List MediaState) := mediaTransitions

/-- `GeneratedVideo.VALID_TRANSITIONS` (models.py lines 639-645). -/
def GeneratedVideo.VALID_TRANSITIONS : List (MediaState × List MediaState) := mediaTransitions

/-- `ImagePrompt.VALID_TRANSITIONS` (models.py lines 403-407). -/
def ImagePrompt.VALID_TRANSITIONS : List (PromptState × List PromptState) :=
  [(.pending, [.generated]), (.generated, [.approved]), (.approved, [.generated])]

/-- `VideoPrompt.VALID_TRANSITIONS` (models.py lines 606-610). -/
def VideoPrompt.VALID_TRANSITIONS : List (PromptState × List PromptState) :=
  [(.pending, [.generated]), (.generated, [.approved]), (.approved, [.generated])]

/-- `Character.approve` (models.py lines 237-238). -/
def Character.approve (s : StructureState) : StructureState × Option (PyExc StructureState) :=
  transition_to Character.VALID_TRANSITIONS "Character" s .approved

/-- `Character.modify` (models.py lines 240-242): transition to `modified`
only when the state is not `approved`; otherwise do nothing. -/
def Character.modify (s : StructureState) : StructureState × Option (PyExc StructureState) :=
  if s ≠ .approved then
    transition_to Character.VALID_TRANSITIONS "Character" s .modified
  else
    (s, none)

/-- `Character.unapprove` (models.py lines 244-245). -/
def Character.unapprove (s : StructureState) : StructureState × Option (PyExc StructureState) :=
  transition_to Character.VALID_TRANSITIONS "Character" s .modified

/-- `Location.approve` (models.py lines 272-273). -/
def Location.approve (s : StructureState) : StructureState × Option (PyExc StructureState) :=
  transition_to Location.VALID_TRANSITIONS "Location" s .approved

/-- `Location.modify` (models.py lines 275-277). -/
def Location.modify (s : StructureState) : StructureState × Option (PyExc StructureState) :=
  if s ≠ .approved then
    transition_to Location.VALID_TRANSITIONS "Location" s .modified
  else
    (s, none)

/-- `Location.unapprove` (models.py lines 279-280). -/
def Location.unapprove (s : StructureState) : StructureState × Option (PyExc StructureState) :=
  transition_to Location.VALID_TRANSITIONS "Location" s .modified

/-- `EpisodeSummary.approve` (models.py lines 305-306). -/
def EpisodeSummary.approve (s : StructureState) : StructureState × Option (PyExc StructureState) :=
  transition_to EpisodeSummary.VALID_TRANSITIONS "EpisodeSummary" s .approved

/-- `EpisodeSummary.modify` (models.py lines 308-310). -/
def EpisodeSummary.modify (s : StructureState) : StructureState × Option (PyExc StructureState) :=
  if s ≠ .approved then
    transition_to EpisodeSummary.VALID_TRANSITIONS "EpisodeSummary" s .modified
  else
    (s, none)

/-- `EpisodeSummary.unapprove` (models.py lines 312-313). -/
def EpisodeSummary.unapprove (s : StructureState) : StructureState × Option (PyExc StructureState) :=
  transition_to EpisodeSummary.VALID_TRANSITIONS "EpisodeSummary" s .modified

/-- Dialogue line row: the columns `generate_episodes` writes
(models.py lines 379-393, episodes.py lines 251-260). -/
structure DialogueLineRec where
  character_id : Option String
  character_name : String
  line_number : Int
  line_text : String
  direction : String
  emotion : String
deriving DecidableEq, Repr

/-- Scene row: the columns `generate_episodes` writes
(models.py lines 357-376, episodes.py lines 229-241). -/
structure SceneRec where
  location_id : Option String
  scene_number : Int
  title : String
  duration_seconds : Int
  time_of_day : String
  mood : String
  action_beats : List String
  camera_notes : String
  dialogue_lines : List DialogueLineRec
deriving DecidableEq, Repr

/-- Episode row: the columns the modelled code reads or writes
(models.py lines 330-341). -/
structure EpisodeRec where
  episode_number : Int
  title : Option String
  cold_open : Option String
  music_cue : Option String
  cliffhanger_moment : Option String
  state : GenerationState
  scenes : List SceneRec
deriving DecidableEq, Repr

/-- `Episode.mark_generating` (models.py lines 344-345). -/
def Episode.mark_generating (e : EpisodeRec) : EpisodeRec × Option (PyExc GenerationState) :=
  let r := transition_to Episode.VALID_TRANSITIONS "Episode" e.state .generating
  ({ e with state := r.1 }, r.2)

/-- `Episode.mark_generated` (models.py lines 347-348). -/
def Episode.mark_generated (e : EpisodeRec) : EpisodeRec × Option (PyExc GenerationState) :=
  let r := transition_to Episode.VALID_TRANSITIONS "Episode" e.state .generated
  ({ e with state := r.1 }, r.2)

/-- `Episode.approve` (models.py lines 350-351). -/
def Episode.approve (e : EpisodeRec) : EpisodeRec × Option (PyExc GenerationState) :=
  let r := transition_to Episode.VALID_TRANSITIONS "Episode" e.state .approved
  ({ e with state := r.1 }, r.2)

/-- `Episode.unapprove` (models.py lines 353-354). -/
def Episode.unapprove (e : EpisodeRec) : EpisodeRec × Option (PyExc GenerationState) :=
  let r := transition_to Episode.VALID_TRANSITIONS "Episode" e.state .generated
  ({ e with state := r.1 }, r.2)

/-- Python method dispatch for zero-argument lifecycle calls on an
`Episode` object: the class body (models.py lines 344-354) defines exactly
`mark_generating`, `mark_generated`, `approve` and `unapprove`;
`StateMachineMixin` contributes only `transition_to` and
`can_transition_to` (which take an argument and are modelled separately).
Looking up any other attribute raises `AttributeError`, leaving the row
untouched. In particular `Episode` defines no `reset_for_regen`, although
episodes.py calls `episode.reset_for_regen()` at lines 147, 185 and 275. -/
def Episode.getattr_call (e : EpisodeRec) (name : String) :
    EpisodeRec × Option (PyExc GenerationState) :=
  if name = "mark_generating" then Episode.mark_generating e
  else if name = "mark_generated" then Episode.mark_generated e
  else if name = "approve" then Episode.approve e
  else if name = "unapprove" then Episode.unapprove e
  else (e, some (.attributeError "Episode" name))

/-- A concrete episode stuck in the `generating` state. -/
def epGenerating : EpisodeRec :=
  { episode_number := 1, title := none, cold_open := none, music_cue := none,
    cliffhanger_moment := none, state := .generating, scenes := [] }

/-- Media row for `CharacterRef`, `LocationRef`, `GeneratedImage` and
`Thumbnail`: the columns `mark_generated` touches (models.py lines
444-450, 483-489, 526-531, 568-576). -/
structure MediaRec where
  image_path : Option String
  image_url : Option String
  state : MediaState
deriving DecidableEq, Repr

/-- Shared body of `mark_generated(path)` in `CharacterRef`,
`LocationRef`, `GeneratedImage` and `Thumbnail` (models.py lines 457-459,
496-498, 538-540, 584-586, textually identical in the four classes):
assign `image_path = path` FIRST, then attempt the transition to
`generated` — so a raised `InvalidTransitionError` leaves the new path
behind on the object. -/
def media_mark_generated (cls : String) (m : MediaRec) (path : String) :
    MediaRec × Option (PyExc MediaState) :=
  let m1 := { m with image_path := some path }
  let r := transition_to mediaTransitions cls m1.state .generated
  ({ m1 with state := r.1 }, r.2)

/-- `CharacterRef.mark_generated` (models.py lines 457-459). -/
def CharacterRef.mark_generated : MediaRec → String → MediaRec × Option (PyExc MediaState) :=
  media_mark_generated "CharacterRef"

/-- `LocationRef.mark_generated` (models.py lines 496-498). -/
def LocationRef.mark_generated : MediaRec → String → MediaRec × Option (PyExc MediaState) :=
  media_mark_generated "LocationRef"

/-- `GeneratedImage.mark_generated` (models.py lines 538-540). -/
def GeneratedImage.mark_generated : MediaRec → String → MediaRec × Option (PyExc MediaState) :=
  media_mark_generated "GeneratedImage"

/-- `Thumbnail.mark_generated` (models.py lines 584-586). -/
def Thumbnail.mark_generated : MediaRec → String → MediaRec × Option (PyExc MediaState) :=
  media_mark_generated "Thumbnail"

/-- Row for `GeneratedVideo` (models.py lines 647-653); the `Float`
duration column is modelled as `ℚ`. -/
structure GeneratedVideoRec where
  video_path : Option String
  video_url : Option String
  duration_seconds : Option ℚ
  state : MediaState
deriving DecidableEq, Repr

/-- `GeneratedVideo.mark_generated(path, duration=None)` (models.py lines
660-664): assign `video_path = path`, assign the duration only when it is
truthy (neither `None` nor `0`), then attempt the transition. -/
def GeneratedVideo.mark_generated (v : GeneratedVideoRec) (path : String)
    (duration : Option ℚ) : GeneratedVideoRec × Option (PyExc MediaState) :=
  let v1 := { v with video_path := some path }
  let v2 := match duration with
    | some d => if d ≠ 0 then { v1 with duration_seconds := some d } else v1
    | none => v1
  let r := transition_to mediaTransitions "GeneratedVideo" v2.state .generated
  ({ v2 with state := r.1 }, r.2)

/-- Behaviour `mark_generated(path)` actually has on the four image-path
media classes: when the current state is `generating` it applies the path
and transitions; from any other state it raises `InvalidTransitionError`
with the state unchanged, but the path field already overwritten. -/
def MarkGeneratedBehaviour (cls : String)
    (f : MediaRec → String → MediaRec × Option (PyExc MediaState)) : Prop :=
  ∀ (m : MediaRec) (path : String),
    (m.state = .generating →
      f m path = ({ m with image_path := some path, state := .generated }, none)) ∧
    (m.state ≠ .generating →
      f m path = ({ m with image_path := some path },
        some (.invalidTransitionError cls m.state .generated)))

/-- A concrete `GeneratedImage` row in the `pending` state carrying a
previously stored path. -/
def giPendingOld : MediaRec :=
  { image_path := some "/old.png", image_url := none, state := .pending }

/-- Character row slice used by the generation/matching code and by the
gate: id, name, lifecycle state, and the state of the 1:1 reference image
when one exists (models.py lines 219-234). -/
structure CharacterRec where
  id : String
  name : String
  state : StructureState
  reference : Option MediaState
deriving DecidableEq, Repr

/-- Location row slice: id, name, lifecycle state, reference-image state
(models.py lines 257-269). -/
structure LocationRec where
  id : String
  name : String
  state : StructureState
  reference : Option MediaState
deriving DecidableEq, Repr

/-- EpisodeSummary row slice used by `generate_episodes`: number, title
and lifecycle state (models.py lines 292-301). -/
structure SummaryRec where
  episode_number : Int
  title : Option String
  state : StructureState
deriving DecidableEq, Repr

/-- One dialogue entry of the Generator's response (the keys episodes.py
lines 244-259 reads, each optional since the JSON is untrusted). -/
structure LineData where
  character : Option String
  line : Option String
  direction : Option String
  emotion : Option String
deriving DecidableEq, Repr

/-- One scene of the Generator's response (keys read at episodes.py lines
215-244; camelCase/snake_case fallbacks collapse to one optional field). -/
structure SceneData where
  location : Option String
  sceneNumber : Option Int
  title : Option String
  duration : Option Int
  timeOfDay : Option String
  mood : Option String
  actionBeats : Option (List String)
  cameraWork : Option String
  dialogue : Option (List LineData)
deriving DecidableEq, Repr

/-- One episode script of the Generator's batch response (keys read at
episodes.py lines 191-215). -/
structure ScriptData where
  episodeNumber : Option Int
  title : Option String
  coldOpen : Option String
  musicCue : Option String
  cliffhangerMoment : Option String
  scenes : Option (List SceneData)
deriving DecidableEq, Repr

/-- Python `str.lower()` as used by the name matching (ASCII lowering;
the names compared here are plain ASCII). -/
def lowerChar (c : Char) : Char :=
  if 65 ≤ c.toNat ∧ c.toNat ≤ 90 then Char.ofNat (c.toNat + 32) else c

/-- Lowercase a whole string. -/
def lowerStr (s : String) : String := ⟨s.data.map lowerChar⟩

/-- Substring test on character lists, for the Python `a in b` membership
used by the location-name fallback match. -/
def charsContain (needle : List Char) : List Char → Bool
  | [] => needle.isEmpty
  | c :: t => needle.isPrefixOf (c :: t) || charsContain needle t

/-- Location matching of episodes.py lines 217-227: exact
case-insensitive name match first, then (when the name is non-empty) a
partial match where either lowered name contains the other. -/
def find_location (locations : List LocationRec) (location_name : String) :
    Option LocationRec :=
  match locations.find? (fun l => lowerStr l.name == lowerStr location_name) with
  | some l => some l
  | none =>
    if location_name ≠ "" then
      locations.find? (fun l =>
        charsContain (lowerStr location_name).data (lowerStr l.name).data ||
        charsContain (lowerStr l.name).data (lowerStr location_name).data)
    else
      none

/-- `_parse_duration` (episodes.py lines 29-36) applied to the optional
duration of the typed response model: an integer passes through, an
absent value falls back to the default 15 supplied at the call site. (The
regex branch for string-typed durations is not reachable from the typed
embedding of the response.) -/
def parse_duration (v : Option Int) : Int := v.getD 15

/-- Dialogue-line creation of episodes.py lines 244-260: enumerate the
response lines, match each speaker to a project character by
case-insensitive exact name, and keep the denormalized speaker name. -/
def build_dialogue (characters : List CharacterRec) (lines : List LineData) :
    List DialogueLineRec :=
  lines.enum.map (fun p =>
    let char_name := p.2.character.getD ""
    let character := characters.find? (fun c => lowerStr c.name == lowerStr char_name)
    { character_id := character.map (fun c => c.id),
      character_name := char_name,
      line_number := (p.1 : Int) + 1,
      line_text := p.2.line.getD "",
      direction := p.2.direction.getD "",
      emotion := p.2.emotion.getD "" })

/-- Scene creation of episodes.py lines 215-260. -/
def build_scene (characters : List CharacterRec) (locations : List LocationRec)
    (sd : SceneData) : SceneRec :=
  let location := find_location locations (sd.location.getD "")
  { location_id := location.map (fun l => l.id),
    scene_number := sd.sceneNumber.getD 1,
    title := sd.title.getD "",
    duration_seconds := parse_duration sd.duration,
    time_of_day := sd.timeOfDay.getD "day",
    mood := sd.mood.getD "dramatic",
    action_beats := sd.actionBeats.getD [],
    camera_notes := sd.cameraWork.getD "",
    dialogue_lines := build_dialogue characters (sd.dialogue.getD []) }

/-- Content application of episodes.py lines 203-260: set the scalar
fields from the response (title falling back to the summary's title, the
rest defaulting to the empty string), clear the existing scenes and
create the response's scenes. -/
def apply_script (characters : List CharacterRec) (locations : List LocationRec)
    (summary : SummaryRec) (sd : ScriptData) (ep : EpisodeRec) : EpisodeRec :=
  { ep with
    title := sd.title <|> summary.title,
    cold_open := some (sd.coldOpen.getD ""),
    music_cue := some (sd.musicCue.getD ""),
    cliffhanger_moment := some (sd.cliffhangerMoment.getD ""),
    scenes := (sd.scenes.getD []).map (build_scene characters locations) }

/-- Chunk preparation for one summary (episodes.py lines 138-158): reuse
the existing episode row for the number if there is one — calling
`reset_for_regen()` first when it is stuck in `generating` — otherwise
create a fresh `pending` row; then `mark_generating()`. -/
def prepare_episode (existing : Option EpisodeRec) (num : Int) :
    EpisodeRec × Option (PyExc GenerationState) :=
  match existing with
  | some ep =>
    if ep.state = .generating then
      match Episode.getattr_call ep "reset_for_regen" with
      | (ep1, some exc) => (ep1, some exc)
      | (ep1, none) => Episode.mark_generating ep1
    else
      Episode.mark_generating ep
  | none =>
    Episode.mark_generating
      { episode_number := num, title := none, cold_open := none, music_cue := none,
        cliffhanger_moment := none, state := .pending, scenes := [] }

/-- Builds `episode_map` for a chunk (episodes.py lines 137-159),
stopping at the first raised exception. -/
def prepare_chunk (existing : List EpisodeRec) :
    List SummaryRec → List (Int × EpisodeRec) × Option (PyExc GenerationState)
  | [] => ([], none)
  | s :: rest =>
    let ex := existing.find? (fun e => e.episode_number == s.episode_number)
    match prepare_episode ex s.episode_number with
    | (ep, some exc) => ([(s.episode_number, ep)], some exc)
    | (ep, none) =>
      let (m, exc) := prepare_chunk existing rest
      ((s.episode_number, ep) :: m, exc)

/-- Replace the entry for an episode number in `episode_map` (the model
of mutating the shared ORM object in place). -/
def update_map (em : List (Int × EpisodeRec)) (n : Int) (ep : EpisodeRec) :
    List (Int × EpisodeRec) :=
  em.map (fun p => if p.1 == n then (p.1, ep) else p)

/-- Handling of one response item (episodes.py lines 190-263): a missing
or unrecognized episode number, or a number with no matching summary, is
skipped; otherwise the content is applied and `mark_generated()` runs. -/
def process_one (characters : List CharacterRec) (locations : List LocationRec)
    (chunk : List SummaryRec) (em : List (Int × EpisodeRec)) (sd : ScriptData) :
    List (Int × EpisodeRec) × Option (PyExc GenerationState) :=
  match sd.episodeNumber with
  | none => (em, none)
  | some n =>
    match em.lookup n with
    | none => (em, none)
    | some ep =>
      match chunk.find? (fun s => s.episode_number == n) with
      | none => (em, none)
      | some summary =>
        let ep1 := apply_script characters locations summary sd ep
        let r := Episode.mark_generated ep1
        (update_map em n r.1, r.2)

/-- The response loop of episodes.py lines 190-270, stopping at the first
raised exception. -/
def process_scripts (characters : List CharacterRec) (locations : List LocationRec)
    (chunk : List SummaryRec) :
    List (Int × EpisodeRec) → List ScriptData →
    List (Int × EpisodeRec) × Option (PyExc GenerationState)
  | em, [] => (em, none)
  | em, sd :: rest =>
    match process_one characters locations chunk em sd with
    | (em1, some exc) => (em1, some exc)
    | (em1, none) => process_scripts characters locations chunk em1 rest

/-- The except-handler loop of episodes.py lines 184-185: call
`reset_for_regen()` on every episode of the chunk, stopping where an
exception is raised. -/
def rollback_all :
    List (Int × EpisodeRec) → List (Int × EpisodeRec) × Option (PyExc GenerationState)
  | [] => ([], none)
  | (n, ep) :: rest =>
    match Episode.getattr_call ep "reset_for_regen" with
    | (ep1, some exc) => ((n, ep1) :: rest, some exc)
    | (ep1, none) =>
      let (r, exc) := rollback_all rest
      ((n, ep1) :: r, exc)

/-- The Generator-failure path (episodes.py lines 182-187): run the
rollback loop over the chunk, then raise `HTTPException(500)` — which is
reached only if the rollback loop itself did not raise. -/
def on_generator_failure (em : List (Int × EpisodeRec)) (msg : String) :
    List (Int × EpisodeRec) × Option (PyExc GenerationState) :=
  match rollback_all em with
  | (em1, some exc) => (em1, some exc)
  | (em1, none) =>
    (em1, some (.httpException 500 ("Script generation failed: " ++ msg)))

/-- The trailing loop of episodes.py lines 272-275: `reset_for_regen()`
on every episode of the chunk still in `generating`, stopping where an
exception is raised. -/
def rollback_unreturned :
    List (Int × EpisodeRec) → List (Int × EpisodeRec) × Option (PyExc GenerationState)
  | [] => ([], none)
  | (n, ep) :: rest =>
    if ep.state = .generating then
      match Episode.getattr_call ep "reset_for_regen" with
      | (ep1, some exc) => ((n, ep1) :: rest, some exc)
      | (ep1, none) =>
        let (r, exc) := rollback_unreturned rest
        ((n, ep1) :: r, exc)
    else
      let (r, exc) := rollback_unreturned rest
      ((n, ep) :: r, exc)

/-- Outcome of the single Generator call for a chunk: a parsed batch
response, or any raised exception (episodes.py lines 174-181). -/
inductive GeneratorOutcome where
  | success (scripts : List ScriptData)
  | failure (msg : String)
deriving DecidableEq, Repr

/-- One iteration of the chunk loop of `generate_episodes` (episodes.py
lines 133-275): prepare the chunk into `generating`, call the Generator,
then either the failure path or the response loop followed by the
rollback of unreturned episodes. Returns the chunk's episode rows as the
session leaves them, with the exception that escaped the iteration, if
any. -/
def run_chunk (characters : List CharacterRec) (locations : List LocationRec)
    (existing : List EpisodeRec) (chunk : List SummaryRec)
    (outcome : GeneratorOutcome) :
    List (Int × EpisodeRec) × Option (PyExc GenerationState) :=
  match prepare_chunk existing chunk with
  | (em, some exc) => (em, some exc)
  | (em, none) =>
    match outcome with
    | .failure msg => on_generator_failure em msg
    | .success scripts =>
      match process_scripts characters locations chunk em scripts with
      | (em1, some exc) => (em1, some exc)
      | (em1, none) => rollback_unreturned em1

/-- An approved summary fixture for episode `n`. -/
def sumFix (n : Int) : SummaryRec :=
  { episode_number := n, title := some ("E" ++ toString n), state := .approved }

/-- The episode row a chunk member has right after preparation: freshly
created and transitioned to `generating`. -/
def genEp (n : Int) : EpisodeRec :=
  { episode_number := n, title := none, cold_open := none, music_cue := none,
    cliffhanger_moment := none, state := .generating, scenes := [] }

/-- Project character and location fixtures for the response matching. -/
def mariaChar : CharacterRec :=
  { id := "c1", name := "Maria", state := .approved, reference := none }

def cafeLoc : LocationRec :=
  { id := "l1", name := "Cafe", state := .approved, reference := none }

/-- A response item matching chunk member 1, with content. -/
def sd1 : ScriptData :=
  { episodeNumber := some 1, title := some "Pilot", coldOpen := some "co",
    musicCue := none, cliffhangerMoment := some "cliff",
    scenes := some [{ location := some "CAFE", sceneNumber := some 1,
                      title := some "Opening", duration := none, timeOfDay := none,
                      mood := none, actionBeats := none, cameraWork := none,
                      dialogue := some [{ character := some "MARIA", line := some "Hola",
                                          direction := none, emotion := none }] }] }

/-- A response item whose episode number matches no member of the chunk. -/
def sd99 : ScriptData :=
  { episodeNumber := some 99, title := some "Ghost", coldOpen := none,
    musicCue := none, cliffhangerMoment := none, scenes := none }

/-- Episode 1 as left by the response loop: content applied (speaker and
location matched back to the project rows) and state `generated`. -/
def ep1Final : EpisodeRec :=
  { episode_number := 1, title := some "Pilot", cold_open := some "co",
    music_cue := some "", cliffhanger_moment := some "cliff", state := .generated,
    scenes := [{ location_id := some "l1", scene_number := 1, title := "Opening",
                 duration_seconds := 15, time_of_day := "day", mood := "dramatic",
                 action_beats := [], camera_notes := "",
                 dialogue_lines := [{ character_id := some "c1",
                                      character_name := "MARIA", line_number := 1,
                                      line_text := "Hola", direction := "",
                                      emotion := "" }] }] }

/-- ImagePrompt row slice for the gate: prompt state and the state of the
1:1 `GeneratedImage` when one has been created (models.py lines 409-420). -/
structure ImagePromptRec where
  state : PromptState
  generated_image : Option MediaState
deriving DecidableEq, Repr

/-- VideoPrompt row slice for the gate (models.py lines 612-623). -/
structure VideoPromptRec where
  state : PromptState
deriving DecidableEq, Repr

/-- Scene slice for the gate: its prompt children (models.py lines
375-376). -/
structure SceneGate where
  image_prompts : List ImagePromptRec
  video_prompts : List VideoPromptRec
deriving DecidableEq, Repr

/-- Episode slice for the gate: lifecycle state and scenes (models.py
lines 337-341). -/
structure EpisodeGateRec where
  state : GenerationState
  scenes : List SceneGate
deriving DecidableEq, Repr

/-- Project row and children, as read by `can_advance_to` and by the
step-mutating endpoints (models.py lines 66-106). -/
structure ProjectRec where
  current_step : Nat
  ideas : List IdeaState
  characters : List CharacterRec
  locations : List LocationRec
  episode_summaries : List StructureState
  episodes : List EpisodeGateRec
deriving DecidableEq, Repr

/-- `Project._check_step_2` (models.py lines 108-109). -/
def ProjectRec.check_step_2 (p : ProjectRec) : Bool :=
  p.ideas.any (fun i => i == .approved)

/-- `Project._check_step_4` (models.py lines 111-112). -/
def ProjectRec.check_step_4 (p : ProjectRec) : Bool :=
  p.characters.length > 0 && p.locations.length > 0 && p.episode_summaries.length > 0

/-- `Project._check_step_5` (models.py lines 114-119). -/
def ProjectRec.check_step_5 (p : ProjectRec) : Bool :=
  p.characters.all (fun c => c.state == .approved) &&
  p.locations.all (fun l => l.state == .approved) &&
  p.episode_summaries.all (fun e => e == .approved)

/-- `Project._check_step_6` (models.py lines 121-122). -/
def ProjectRec.check_step_6 (p : ProjectRec) : Bool :=
  p.episodes.any (fun e => e.state == .generated)

/-- `Project._check_step_8` (models.py lines 124-133): some image prompt
generated-or-approved, and every character and location has a reference
in a non-pending state (a missing reference is falsy in the source and
fails the `all`). -/
def ProjectRec.check_step_8 (p : ProjectRec) : Bool :=
  let has_prompts := p.episodes.any (fun e => e.scenes.any (fun s =>
    s.image_prompts.any (fun ip => ip.state == .generated || ip.state == .approved)))
  let has_char_refs := p.characters.all (fun c =>
    match c.reference with
    | some st => st != MediaState.pending
    | none => false)
  let has_loc_refs := p.locations.all (fun l =>
    match l.reference with
    | some st => st != MediaState.pending
    | none => false)
  has_prompts && has_char_refs && has_loc_refs

/-- `Project._check_step_10` (models.py lines 135-141). -/
def ProjectRec.check_step_10 (p : ProjectRec) : Bool :=
  p.episodes.any (fun e => e.scenes.any (fun s =>
    s.image_prompts.any (fun ip =>
      match ip.generated_image with
      | some st => st == MediaState.generated
      | none => false)))

/-- `Project._check_step_11` (models.py lines 143-159): collect the
existing generated images; require a non-empty collection, all reviewed
(approved or rejected), and at least one approved. -/
def ProjectRec.check_step_11 (p : ProjectRec) : Bool :=
  let images := p.episodes.flatMap (fun e => e.scenes.flatMap (fun s =>
    s.image_prompts.filterMap (fun ip => ip.generated_image)))
  !images.isEmpty &&
  images.all (fun st => st == MediaState.approved || st == MediaState.rejected) &&
  images.any (fun st => st == MediaState.approved)

/-- `Project._check_step_12` (models.py lines 161-167). -/
def ProjectRec.check_step_12 (p : ProjectRec) : Bool :=
  p.episodes.any (fun e => e.scenes.any (fun s =>
    s.video_prompts.any (fun vp => vp.state == .approved)))

/-- `Project.can_advance_to` (models.py lines 85-106): trivially true at
or below the current step, false when skipping more than one step,
otherwise the per-step prerequisite check (a step without a check — step
1 and the unreachable fall-through — is allowed). -/
def ProjectRec.can_advance_to (p : ProjectRec) (step : Nat) : Bool :=
  if step ≤ p.current_step then true
  else if step > p.current_step + 1 then false
  else match step with
    | 2 => p.check_step_2
    | 3 => p.check_step_2
    | 4 => p.check_step_4
    | 5 => p.check_step_5
    | 6 => p.check_step_6
    | 7 => p.check_step_6
    | 8 => p.check_step_8
    | 9 => p.check_step_8
    | 10 => p.check_step_10
    | 11 => p.check_step_11
    | 12 => p.check_step_12
    | _ => true

/-- The direct step write appearing in the generation endpoints
(`if project.current_step < N: project.current_step = N` — structure.py
lines 125-126 and 319-320, episodes.py lines 278-279, images.py lines
129-130, 255-256, 456-457, 613-614, videos.py lines 123-124 and 222-223):
no gate consultation. -/
def step_bump (n : Nat) (p : ProjectRec) : ProjectRec :=
  if p.current_step < n then { p with current_step := n } else p

/-- The step numbers written directly by the endpoints listed at
`step_bump`. -/
def stepBumps : List Nat := [2, 3, 4, 5, 6, 7, 8, 9, 11, 12]

/-- `advance_step` (projects.py lines 102-122): the only step mutation
that consults the gate. -/
def advance_step (p : ProjectRec) : ProjectRec × Option (PyExc Nat) :=
  let next_step := p.current_step + 1
  if next_step > 12 then
    (p, some (.httpException 400 "Already at final step"))
  else if p.can_advance_to next_step = false then
    (p, some (.httpException 400 "Cannot advance - prerequisites not met"))
  else
    ({ p with current_step := next_step }, none)

/-- `generate_reference_prompts` (images.py lines 203-261): create a
pending reference for every character and location that lacks one, then
write step 7 directly (lines 255-256) without consulting the gate. -/
def generate_reference_prompts (p : ProjectRec) : ProjectRec :=
  let p1 := { p with
    characters := p.characters.map (fun c =>
      if c.reference.isNone then { c with reference := some .pending } else c),
    locations := p.locations.map (fun l =>
      if l.reference.isNone then { l with reference := some .pending } else l) }
  step_bump 7 p1

/-- Idea row slice used by the approval endpoint (models.py lines
183-191). -/
structure IdeaRec where
  id : String
  title : String
  setting : Option String
  state : IdeaState
deriving DecidableEq, Repr

/-- Project slice the ideas endpoint touches (models.py lines 69-78). -/
structure ProjIdeas where
  title : Option String
  setting : Option String
  current_step : Nat
  ideas : List IdeaRec
deriving DecidableEq, Repr

/-- `Idea.approve` (models.py lines 195-199): transition to `approved`,
then copy the idea's title and setting onto the project. On a raised
transition error the copies never execute. -/
def Idea.approve (p : ProjIdeas) (i : IdeaRec) :
    (IdeaRec × ProjIdeas) × Option (PyExc IdeaState) :=
  let r := transition_to Idea.VALID_TRANSITIONS "Idea" i.state .approved
  match r.2 with
  | some exc => (({ i with state := r.1 }, p), some exc)
  | none =>
    (({ i with state := r.1 },
      { p with title := some i.title, setting := i.setting }), none)

/-- `approve_idea` endpoint (ideas.py lines 104-129): look the idea up,
set every *other* draft idea of the project to `rejected` by direct state
assignment, call `idea.approve()`, copy title and setting onto the
project once more, and raise the step to 2 when it is below 2. -/
def approve_idea (p : ProjIdeas) (idea_id : String) :
    ProjIdeas × Option (PyExc IdeaState) :=
  match p.ideas.find? (fun i => i.id == idea_id) with
  | none => (p, some (.httpException 404 "Idea not found"))
  | some idea =>
    let ideas1 := p.ideas.map (fun o =>
      if o.id != idea_id && o.state == .draft then { o with state := .rejected } else o)
    let p1 := { p with ideas := ideas1 }
    match Idea.approve p1 idea with
    | ((_, p2), some exc) => (p2, some exc)
    | ((i1, p2), none) =>
      let p3 := { p2 with
        ideas := p2.ideas.map (fun (o : IdeaRec) => if o.id == idea_id then i1 else o) }
      let p4 := { p3 with title := some idea.title, setting := idea.setting }
      let p5 := if p4.current_step < 2 then { p4 with current_step := 2 } else p4
      (p5, none)

/-- The entity-type tags of `ENTITY_MAP` (recovery.py lines 20-27). -/
inductive EntityTag where
  | episodes | character_refs | location_refs | generated_images
  | thumbnails | generated_videos
deriving DecidableEq, Repr

/-- The state family of each tagged entity type: episodes carry
`GenerationState`, the five media types carry `MediaState`. -/
def EntityTag.StateOf : EntityTag → Type
  | .episodes => GenerationState
  | _ => MediaState

instance (t : EntityTag) : DecidableEq t.StateOf :=
  match t with
  | .episodes => inferInstanceAs (DecidableEq GenerationState)
  | .character_refs => inferInstanceAs (DecidableEq MediaState)
  | .location_refs => inferInstanceAs (DecidableEq MediaState)
  | .generated_images => inferInstanceAs (DecidableEq MediaState)
  | .thumbnails => inferInstanceAs (DecidableEq MediaState)
  | .generated_videos => inferInstanceAs (DecidableEq MediaState)

/-- The model class name of each tag. -/
def EntityTag.cls : EntityTag → String
  | .episodes => "Episode"
  | .character_refs => "CharacterRef"
  | .location_refs => "LocationRef"
  | .generated_images => "GeneratedImage"
  | .thumbnails => "Thumbnail"
  | .generated_videos => "GeneratedVideo"

/-- The transition table of each tag's model class. -/
def EntityTag.table : (t : EntityTag) → List (t.StateOf × List t.StateOf)
  | .episodes => Episode.VALID_TRANSITIONS
  | .character_refs => CharacterRef.VALID_TRANSITIONS
  | .location_refs => LocationRef.VALID_TRANSITIONS
  | .generated_images => GeneratedImage.VALID_TRANSITIONS
  | .thumbnails => Thumbnail.VALID_TRANSITIONS
  | .generated_videos => GeneratedVideo.VALID_TRANSITIONS

/-- The `generating_value` of `ENTITY_MAP` (recovery.py lines 20-27). -/
def EntityTag.generating_state : (t : EntityTag) → t.StateOf
  | .episodes => GenerationState.generating
  | .character_refs => MediaState.generating
  | .location_refs => MediaState.generating
  | .generated_images => MediaState.generating
  | .thumbnails => MediaState.generating
  | .generated_videos => MediaState.generating

/-- The `pending_value` of `ENTITY_MAP` (recovery.py lines 20-27). -/
def EntityTag.pending_state : (t : EntityTag) → t.StateOf
  | .episodes => GenerationState.pending
  | .character_refs => MediaState.pending
  | .location_refs => MediaState.pending
  | .generated_images => MediaState.pending
  | .thumbnails => MediaState.pending
  | .generated_videos => MediaState.pending

/-- The `.value` string of a state, as interpolated into the endpoint's
error detail. -/
def EntityTag.state_value : (t : EntityTag) → t.StateOf → String
  | .episodes, GenerationState.pending => "pending"
  | .episodes, GenerationState.generating => "generating"
  | .episodes, GenerationState.generated => "generated"
  | .episodes, GenerationState.approved => "approved"
  | .character_refs, st => mediaValue st
  | .location_refs, st => mediaValue st
  | .generated_images, st => mediaValue st
  | .thumbnails, st => mediaValue st
  | .generated_videos, st => mediaValue st
where
  mediaValue : MediaState → String
  | .pending => "pending"
  | .generating => "generating"
  | .generated => "generated"
  | .approved => "approved"
  | .rejected => "rejected"

/-- `reset_stuck_entity` (recovery.py lines 30-49), after the tag and the
entity have been resolved: when the state is not the tag's `generating`
value raise `HTTPException(400)` reporting the state and leave the entity
unchanged, otherwise `transition_to` the tag's `pending` value. -/
def reset_stuck_entity (t : EntityTag) (st : t.StateOf) :
    t.StateOf × Option (PyExc t.StateOf) :=
  if st ≠ t.generating_state then
    (st, some (.httpException 400
      ("Entity is not stuck (state: " ++ t.state_value st ++ ")")))
  else
    transition_to t.table t.cls st t.pending_state

/-- A project sitting at step 5 with no children. -/
def p6cx : ProjectRec :=
  { current_step := 5, ideas := [], characters := [], locations := [],
    episode_summaries := [], episodes := [] }

/-- A project at step 1 holding an approved idea. -/
def p6w : ProjectRec :=
  { current_step := 1, ideas := [.approved], characters := [], locations := [],
    episode_summaries := [], episodes := [] }

/-- Draft character fixture. -/
def charD (n : String) : CharacterRec :=
  { id := n, name := n, state := .draft, reference := none }

/-- Approved character fixture. -/
def charA (n : String) : CharacterRec :=
  { id := n, name := n, state := .approved, reference := none }

/-- Draft location fixture. -/
def locD (n : String) : LocationRec :=
  { id := n, name := n, state := .draft, reference := none }

/-- Approved location fixture. -/
def locA (n : String) : LocationRec :=
  { id := n, name := n, state := .approved, reference := none }

/-- Step-4 project with two draft characters, a draft location and a
draft summary. -/
def p8a : ProjectRec :=
  { current_step := 4, ideas := [.approved], characters := [charD "c1", charD "c2"],
    locations := [locD "l1"], episode_summaries := [.draft], episodes := [] }

/-- Same project after approving both characters only. -/
def p8b : ProjectRec :=
  { p8a with characters := [charA "c1", charA "c2"] }

/-- Same project after approving the characters, the location and the
summary. -/
def p8c : ProjectRec :=
  { p8b with locations := [locA "l1"], episode_summaries := [.approved] }

/-- Draft idea X with title and setting. -/
def ideaX : IdeaRec :=
  { id := "x", title := "Amor", setting := some "Havana", state := .draft }

/-- A sibling draft idea. -/
def ideaY : IdeaRec :=
  { id := "y", title := "Otro", setting := none, state := .draft }

/-- An already-rejected sibling idea. -/
def ideaZ : IdeaRec :=
  { id := "z", title := "Viejo", setting := none, state := .rejected }

/-- A project at step 1 holding the three ideas. -/
def pIdeas : ProjIdeas :=
  { title := none, setting := none, current_step := 1,
    ideas := [ideaY, ideaX, ideaZ] }

-- ============================================================================
-- Theorems
-- ============================================================================

/-- C1: for every entity carrying a `VALID_TRANSITIONS` table and every
pair of current and target states, `transition_to(target)` mutates the
state to the target and raises nothing iff the target is in
`VALID_TRANSITIONS[current]`; otherwise it raises
`InvalidTransitionError` (carrying entity type, current state, target
state) and leaves the state unchanged. -/
theorem c1_transition_to_spec {σ : Type} [DecidableEq σ]
    (valid : List (σ × List σ)) (cls : String) (cur tgt : σ) :
    (transition_to valid cls cur tgt = (tgt, none) ↔
      tgt ∈ (valid.lookup cur).getD []) ∧
    (tgt ∉ (valid.lookup cur).getD [] →
      transition_to valid cls cur tgt =
        (cur, some (.invalidTransitionError cls cur tgt))) := by
  constructor
  · constructor
    · intro h
      by_contra hmem
      simp only [transition_to, if_neg hmem, Prod.mk.injEq] at h
      exact Option.noConfusion h.2
    · intro hmem
      simp [transition_to, if_pos hmem]
  · intro hmem
    simp [transition_to, if_neg hmem]

/-- Witness for C1 at the `Episode` table: from `pending`, transitioning
to `generating` is legal and succeeds, while transitioning to `approved`
is illegal, raises, and leaves the state at `pending`. -/
theorem c1_witness :
    (transition_to Episode.VALID_TRANSITIONS "Episode" .pending .generating =
      (.generating, none)) ∧
    (transition_to Episode.VALID_TRANSITIONS "Episode" .pending .approved =
      (.pending, some (.invalidTransitionError "Episode" .pending .approved))) :=
  ⟨(c1_transition_to_spec Episode.VALID_TRANSITIONS "Episode" .pending .generating).1.2
      (by decide),
   (c1_transition_to_spec Episode.VALID_TRANSITIONS "Episode" .pending .approved).2
      (by decide)⟩

/-- C10: for each of `Character`, `Location` and `EpisodeSummary`,
`modify()` from the `modified` state raises `InvalidTransitionError`
(`modified` is not a legal target from `modified`) leaving the state
unchanged, succeeds from `draft`, and is a silent no-op from `approved` —
so `modify()` is not idempotent. -/
theorem c10_modify_not_idempotent :
    (Character.modify .modified =
        (.modified, some (.invalidTransitionError "Character" .modified .modified)) ∧
      Character.modify .draft = (.modified, none) ∧
      Character.modify .approved = (.approved, none)) ∧
    (Location.modify .modified =
        (.modified, some (.invalidTransitionError "Location" .modified .modified)) ∧
      Location.modify .draft = (.modified, none) ∧
      Location.modify .approved = (.approved, none)) ∧
    (EpisodeSummary.modify .modified =
        (.modified, some (.invalidTransitionError "EpisodeSummary" .modified .modified)) ∧
      EpisodeSummary.modify .draft = (.modified, none) ∧
      EpisodeSummary.modify .approved = (.approved, none)) := by
  decide

/-- C3 (code bug exhibited): `Episode` does not expose `reset_for_regen` —
calling it on an episode in the `generating` state, as episodes.py does at
lines 147, 185 and 275, raises `AttributeError` and performs no
`generating → pending` transition, while the four lifecycle methods the
class does define dispatch successfully (`mark_generated` shown). -/
theorem c3_episode_reset_for_regen_missing :
    Episode.getattr_call epGenerating "reset_for_regen" =
      (epGenerating, some (.attributeError "Episode" "reset_for_regen")) ∧
    (Episode.getattr_call epGenerating "reset_for_regen").1.state = .generating ∧
    Episode.getattr_call epGenerating "mark_generated" =
      ({ epGenerating with state := .generated }, none) := by
  decide

/-- Evaluation of the media transition to `generated`: legal exactly from
`generating`. -/
theorem media_tr_generated (cls : String) (s : MediaState) :
    transition_to mediaTransitions cls s .generated =
      if s = .generating then (.generated, none)
      else (s, some (.invalidTransitionError cls s .generated)) := by
  cases s <;> rfl

theorem media_mark_generated_cases (cls : String) :
    MarkGeneratedBehaviour cls (media_mark_generated cls) := by
  intro m path
  constructor
  · intro h
    simp [media_mark_generated, media_tr_generated, h]
  · intro h
    simp [media_mark_generated, media_tr_generated, h]

/-- C7 counterexample: on a pending `GeneratedImage` with stored path
`/old.png`, `mark_generated("/new.png")` raises `InvalidTransitionError`
and leaves the state at `pending`, but the stored path has been
overwritten with `/new.png` — the previously stored path is NOT left
unchanged, refuting the claimed atomicity. -/
theorem c7_counterexample :
    GeneratedImage.mark_generated giPendingOld "/new.png" =
      ({ giPendingOld with image_path := some "/new.png" },
        some (.invalidTransitionError "GeneratedImage" .pending .generated)) ∧
    (GeneratedImage.mark_generated giPendingOld "/new.png").1.image_path ≠
      giPendingOld.image_path := by
  constructor
  · rfl
  · decide

/-- C7 as amended: for every media entity (`CharacterRef`, `LocationRef`,
`GeneratedImage`, `Thumbnail`, `GeneratedVideo`), `mark_generated(path)`
first assigns the path field and then performs the transition to
`generated`; when the transition from the current state is not legal it
raises `InvalidTransitionError` and leaves the state unchanged, but the
path field has already been overwritten with the new path (the path
assignment precedes the transition check, so the pair is not atomic on
failure). -/
theorem c7_mark_generated_amended :
    MarkGeneratedBehaviour "CharacterRef" CharacterRef.mark_generated ∧
    MarkGeneratedBehaviour "LocationRef" LocationRef.mark_generated ∧
    MarkGeneratedBehaviour "GeneratedImage" GeneratedImage.mark_generated ∧
    MarkGeneratedBehaviour "Thumbnail" Thumbnail.mark_generated ∧
    (∀ (v : GeneratedVideoRec) (path : String),
      (v.state = .generating →
        GeneratedVideo.mark_generated v path none =
          ({ v with video_path := some path, state := .generated }, none)) ∧
      (v.state ≠ .generating →
        GeneratedVideo.mark_generated v path none =
          ({ v with video_path := some path },
            some (.invalidTransitionError "GeneratedVideo" v.state .generated)))) := by
  refine ⟨media_mark_generated_cases _, media_mark_generated_cases _,
    media_mark_generated_cases _, media_mark_generated_cases _, ?_⟩
  intro v path
  constructor
  · intro h
    simp [GeneratedVideo.mark_generated, media_tr_generated, h]
  · intro h
    simp [GeneratedVideo.mark_generated, media_tr_generated, h]

/-- Witness for C7's amended theorem: a `Thumbnail` in the `generating`
state transitions to `generated` with the path applied, and a
`GeneratedVideo` in the `rejected` state raises with its state unchanged
and the new path left behind. -/
theorem c7_witness :
    Thumbnail.mark_generated
        { image_path := none, image_url := none, state := .generating } "/t.png" =
      ({ image_path := some "/t.png", image_url := none, state := .generated }, none) ∧
    GeneratedVideo.mark_generated
        { video_path := some "/v0.mp4", video_url := none,
          duration_seconds := none, state := .rejected } "/v1.mp4" none =
      ({ video_path := some "/v1.mp4", video_url := none,
          duration_seconds := none, state := .rejected },
        some (.invalidTransitionError "GeneratedVideo" .rejected .generated)) :=
  ⟨(c7_mark_generated_amended.2.2.2.1
      { image_path := none, image_url := none, state := .generating } "/t.png").1 rfl,
   (c7_mark_generated_amended.2.2.2.2
      { video_path := some "/v0.mp4", video_url := none,
        duration_seconds := none, state := .rejected } "/v1.mp4").2 (by decide)⟩

/-- C2 (code bug exhibited): a chunk of 3 episodes is prepared into the
`generating` state and the Generator raises; the except-handler's very
first `reset_for_regen()` call raises `AttributeError` (the method does
not exist on `Episode`), so no episode is rolled back to `pending` — all
three remain `generating` — and the escaping exception is the
`AttributeError`, not the `HTTPException(500)` the handler meant to
raise. -/
theorem c2_generator_failure_rollback_crashes :
    run_chunk [] [] [] [sumFix 1, sumFix 2, sumFix 3] (.failure "boom") =
      ([(1, genEp 1), (2, genEp 2), (3, genEp 3)],
        some (.attributeError "Episode" "reset_for_regen")) ∧
    ((run_chunk [] [] [] [sumFix 1, sumFix 2, sumFix 3] (.failure "boom")).1.map
        (fun p => p.2.state)) = [.generating, .generating, .generating] :=
  ⟨rfl, rfl⟩

/-- C4 (code bug exhibited): a chunk of 2 episodes where the Generator
returns an item for episode 1 plus an item for the unknown number 99.
The matched episode does transition to `generated` with the returned
content applied and the unknown item is skipped without error — but the
rollback of the omitted member (episode 2) raises `AttributeError`
instead of resetting it to `pending`, so episode 2 remains `generating`
and the exception escapes the endpoint. -/
theorem c4_omitted_member_rollback_crashes :
    run_chunk [mariaChar] [cafeLoc] [] [sumFix 1, sumFix 2] (.success [sd1, sd99]) =
      ([(1, ep1Final), (2, genEp 2)],
        some (.attributeError "Episode" "reset_for_regen")) ∧
    ((run_chunk [mariaChar] [cafeLoc] [] [sumFix 1, sumFix 2]
        (.success [sd1, sd99])).1.map (fun p => p.2.state)) =
      [.generated, .generating] := by
  decide

/-- C6 counterexample: `generate_reference_prompts` on a project at step
5 writes `current_step = 7` although `can_advance_to(7)` (and even
`can_advance_to(6)`) is false beforehand — the step increases without the
gate having held, refuting the claim. -/
theorem c6_gate_skipped_counterexample :
    p6cx.current_step = 5 ∧
    (generate_reference_prompts p6cx).current_step = 7 ∧
    p6cx.can_advance_to 7 = false ∧
    p6cx.can_advance_to 6 = false := by
  decide

/-- C6 as amended: `Project.current_step` never decreases under any of
the step-mutating operations (`advance_step` and the direct
`if current_step < N` bumps of the generation endpoints, including
`generate_reference_prompts`), and the `advance_step` endpoint is the
only gated one: when it succeeds it moved the step up by exactly one and
`can_advance_to` held beforehand. The generation endpoints write their
step number directly without consulting the gate, so steps can be
skipped (see the counterexample). -/
theorem c6_step_monotone_and_gated :
    (∀ p : ProjectRec, p.current_step ≤ (advance_step p).1.current_step) ∧
    (∀ (p p' : ProjectRec), advance_step p = (p', none) →
      p'.current_step = p.current_step + 1 ∧
      p.can_advance_to (p.current_step + 1) = true) ∧
    (∀ (n : Nat) (p : ProjectRec), p.current_step ≤ (step_bump n p).current_step) ∧
    (∀ p : ProjectRec, p.current_step ≤ (generate_reference_prompts p).current_step) := by
  refine ⟨?_, ?_, ?_, ?_⟩
  · intro p
    simp only [advance_step]
    split_ifs <;> simp
  · intro p p' h
    simp only [advance_step] at h
    split_ifs at h with h1 h2
    · exact absurd (congrArg Prod.snd h) (by simp)
    · exact absurd (congrArg Prod.snd h) (by simp)
    · have hp := congrArg Prod.fst h
      simp at hp
      subst hp
      exact ⟨rfl, eq_true_of_ne_false h2⟩
  · intro n p
    unfold step_bump
    split_ifs with h
    · simp
      omega
    · simp
  · intro p
    simp only [generate_reference_prompts, step_bump]
    split_ifs with h
    · simp
      omega
    · simp

/-- Witness for C6's amended theorem: the gated advance succeeds from
step 1 to step 2 (the gate holds), and a direct bump never lowers the
step. -/
theorem c6_witness :
    (advance_step p6w).1.current_step = p6w.current_step + 1 ∧
    p6w.can_advance_to (p6w.current_step + 1) = true ∧
    p6w.current_step ≤ (step_bump 7 p6w).current_step :=
  ⟨(c6_step_monotone_and_gated.2.1 p6w _ rfl).1,
   (c6_step_monotone_and_gated.2.1 p6w _ rfl).2,
   c6_step_monotone_and_gated.2.2.1 7 p6w⟩

/-- C8: for a project with `current_step = 4`, `can_advance_to(5)` is
true iff every character, every location and every episode summary is in
the `approved` state. -/
theorem c8_step5_gate_iff (p : ProjectRec) (h : p.current_step = 4) :
    p.can_advance_to 5 = true ↔
      ((∀ c ∈ p.characters, c.state = .approved) ∧
       (∀ l ∈ p.locations, l.state = .approved) ∧
       (∀ e ∈ p.episode_summaries, e = .approved)) := by
  unfold ProjectRec.can_advance_to
  rw [h]
  simp only [ProjectRec.check_step_5, List.all_eq_true]
  norm_num
  tauto

/-- Witness for C8: with two unapproved characters the gate is false;
after approving both characters (but not the location or the summary) it
is still false; after approving all three kinds it is true. -/
theorem c8_witness :
    p8a.can_advance_to 5 = false ∧
    p8b.can_advance_to 5 = false ∧
    p8c.can_advance_to 5 = true := by
  refine ⟨?_, ?_, (c8_step5_gate_iff p8c rfl).mpr (by decide)⟩
  · exact Bool.eq_false_iff.mpr
      (fun hb => absurd ((c8_step5_gate_iff p8a rfl).mp hb) (by decide))
  · exact Bool.eq_false_iff.mpr
      (fun hb => absurd ((c8_step5_gate_iff p8b rfl).mp hb) (by decide))

/-- C9: for every entity-type tag of `ENTITY_MAP`, the reset operation on
an entity whose state is not the tag's `generating` value raises
`HTTPException(400)` reporting the state and leaves the state unchanged;
on an entity in the `generating` state it transitions to `pending`
without error. -/
theorem c9_reset_stuck_entity_spec (t : EntityTag) (st : t.StateOf) :
    (st ≠ t.generating_state →
      reset_stuck_entity t st =
        (st, some (.httpException 400
          ("Entity is not stuck (state: " ++ t.state_value st ++ ")")))) ∧
    (st = t.generating_state →
      reset_stuck_entity t st = (t.pending_state, none)) := by
  constructor
  · intro h
    unfold reset_stuck_entity
    rw [if_pos h]
  · intro h
    subst h
    unfold reset_stuck_entity
    cases t <;> rfl

/-- Witness for C9: an `Episode` in the `generated` state is rejected
with the 400 error and left unchanged, and a `GeneratedImage` in the
`generating` state is reset to `pending`. -/
theorem c9_witness :
    reset_stuck_entity .episodes GenerationState.generated =
      (GenerationState.generated,
        some (.httpException 400 "Entity is not stuck (state: generated)")) ∧
    reset_stuck_entity .generated_images MediaState.generating =
      (MediaState.pending, none) :=
  ⟨(c9_reset_stuck_entity_spec .episodes GenerationState.generated).1
      (fun hcon => GenerationState.noConfusion hcon),
   (c9_reset_stuck_entity_spec .generated_images MediaState.generating).2 rfl⟩

/-- Evaluation of the idea transition from `draft` to `approved`. -/
theorem idea_tr_draft_approved :
    transition_to Idea.VALID_TRANSITIONS "Idea" .draft .approved =
      (.approved, none) := rfl

/-- C5: approving a draft idea X through the approval endpoint approves
X's entries, turns every sibling draft idea into `rejected`, and copies
X's title and setting onto the project, raising nothing. -/
theorem c5_approve_idea_side_effects (p : ProjIdeas) (xid : String) (X : IdeaRec)
    (hfind : p.ideas.find? (fun i => i.id == xid) = some X)
    (hdraft : X.state = .draft) :
    approve_idea p xid =
      ({ title := some X.title, setting := X.setting,
         current_step := if p.current_step < 2 then 2 else p.current_step,
         ideas := p.ideas.map (fun o =>
           if o.id == xid then { X with state := .approved }
           else if o.state == .draft then { o with state := .rejected } else o) },
       none) := by
  unfold approve_idea
  rw [hfind]
  simp only [Idea.approve, hdraft, idea_tr_draft_approved, List.map_map]
  split_ifs with hc <;>
  · refine congrArg₂ Prod.mk ?_ rfl
    congr 1
    apply List.map_congr_left
    intro o ho
    by_cases h1 : o.id = xid
    · simp [Function.comp, h1]
    · by_cases h2 : o.state = IdeaState.draft <;>
        simp [Function.comp, h1, h2]

/-- Witness for C5: approving draft idea X rejects the sibling draft Y,
leaves the already-rejected Z alone, approves X, and copies X's title and
setting onto the project. -/
theorem c5_witness :
    pIdeas.ideas.find? (fun i => i.id == "x") = some ideaX ∧
    ideaX.state = .draft ∧
    approve_idea pIdeas "x" =
      ({ title := some "Amor", setting := some "Havana", current_step := 2,
         ideas := [{ ideaY with state := .rejected },
                   { ideaX with state := .approved }, ideaZ] }, none) :=
  ⟨rfl, rfl, by rw [c5_approve_idea_side_effects pIdeas "x" ideaX rfl rfl]; rfl⟩
